import Mathlib

set_option maxRecDepth 8192

/-!
Verification of the response-classification and field-derivation core of the
batch invoicing client (`onboarding_assignment/app.py`).

The embedding models Python values shallowly: JSON values as an inductive
type, numbers as rationals, machine exceptions (`KeyError`, `TypeError`,
`AttributeError`, JSON decode failures) and the domain error taxonomy as an
explicit error type threaded through `Except`.
-/

namespace Onboarding

/-- A JSON value, as produced by `response.json()`. Objects are association
lists of string keys (the inputs considered have no duplicate keys); numbers
are modelled as rationals. -/
inductive Json where
  | null
  | bool (b : Bool)
  | num (q : ℚ)
  | str (s : String)
  | arr (elems : List Json)
  | obj (fields : List (String × Json))
  deriving Repr

/-- Key lookup in a JSON object field list (Python dict lookup). -/
def lookupField (fields : List (String × Json)) (k : String) : Option Json :=
  (fields.find? (fun p => p.1 = k)).map Prod.snd

/-- Python truthiness of a JSON value, deciding `if not status:` in the
source: `None`, `False`, `0`, `""`, `[]` and the empty dict are falsy. -/
def Json.truthy : Json → Bool
  | .null => false
  | .bool b => b
  | .num q => decide (q ≠ 0)
  | .str s => decide (s ≠ "")
  | .arr elems => !elems.isEmpty
  | .obj fields => !fields.isEmpty

/-- Python `k in d` for a JSON value; `check_response` only evaluates this
after `d["status"]` has succeeded, which guarantees `d` is a dict. -/
def jsonHasKey (j : Json) (k : String) : Bool :=
  match j with
  | .obj fields => (lookupField fields k).isSome
  | _ => false

/-- Python `j == s` between a JSON value and a string literal: true exactly
when `j` is that string (comparison with non-strings is `False`, never an
error). -/
def jsonEqStr (j : Json) (s : String) : Bool :=
  match j with
  | .str t => t = s
  | _ => false

/-- Python `str()` of a JSON value, as interpolated by `format` into error
messages. Scalars are rendered exactly; container values are abbreviated
(no branch modelled here ever formats a container in the inputs considered). -/
def pyStr : Json → String
  | .null => "None"
  | .bool b => if b then "True" else "False"
  | .num q => if q.den = 1 then toString q.num else toString q
  | .str s => s
  | .arr _ => "[...]"
  | .obj _ => "\x7b...\x7d"

/-- The domain error taxonomy: `InvoicingError` and its subclasses from the
source, each carrying its message string. -/
inductive InvoicingError where
  | serviceMalfunctioning (msg : String)
  | notAuthorized (msg : String)
  | invalidAuthentication (msg : String)
  | requestForm (msg : String)
  | permissionDenied (msg : String)
  | objectNotFound (msg : String)
  | invalidParameter (msg : String)
  | invalidContact (msg : String)
  deriving Repr, DecidableEq

/-- Exceptions that can escape the modelled code: the typed domain errors,
plus the raw Python exceptions that the source does not catch (`KeyError`
from `d[k]` and header lookup, `TypeError` from indexing a non-dict,
`AttributeError` from `.get` on a non-dict, and the JSON decode error from
`response.json()` on a non-JSON body). -/
inductive PyExc where
  | domain (e : InvoicingError)
  | keyError (key : String)
  | typeError
  | attributeError
  | jsonDecodeError
  deriving Repr, DecidableEq

/-- Python `d[k]` on a JSON value: the value when `d` is a dict containing
`k`; `KeyError` when the key is absent; `TypeError` when `d` is not a dict
(string/list indices must be integers, other values are not subscriptable). -/
def pyIndex (j : Json) (k : String) : Except PyExc Json :=
  match j with
  | .obj fields =>
    match lookupField fields k with
    | some v => .ok v
    | none => .error (.keyError k)
  | _ => .error .typeError

/-- Python `d.get(k)`: on a dict, the value or `None`; any other value has
no `.get` attribute and raises `AttributeError`. -/
def pyGet (j : Json) (k : String) : Except PyExc Json :=
  match j with
  | .obj fields => .ok ((lookupField fields k).getD .null)
  | _ => .error .attributeError

/-- An httpx response as consumed by `check_response`: integer status code,
headers as name/value pairs, and the JSON parse of the body (`none` when the
body is not valid JSON, in which case `response.json()` raises). -/
structure Response where
  status_code : Nat
  headers : List (String × String)
  body : Option Json
  deriving Repr

/-- Character-wise ASCII lowercasing (header names are ASCII). -/
def lowerAscii (s : String) : String :=
  ⟨s.data.map Char.toLower⟩

/-- `response.headers[k]`: httpx header lookup is case-insensitive and
raises `KeyError` when the header is absent. -/
def headerGet (headers : List (String × String)) (k : String) : Except PyExc String :=
  match headers.find? (fun p => lowerAscii p.1 = lowerAscii k) with
  | some p => .ok p.2
  | none => .error (.keyError k)

/-- `response.json()`: the parsed body, or the decode error for a non-JSON
body. -/
def responseJson (r : Response) : Except PyExc Json :=
  match r.body with
  | some j => .ok j
  | none => .error .jsonDecodeError

/-- `check_response(response)` from the source, translated branch by branch.
The Python function is annotated `-> None`: on status 200 it returns
immediately and otherwise either returns `None` or raises, so the embedding
returns `Except PyExc Unit`. On a non-200 status it parses the body
(`response.json()`), reads `data["status"]` (a raw `KeyError` when absent),
then walks the 5xx / falsy-status / missing-data / 400 / 403 / 404 branches
in source order; any unmatched status code falls through and returns
normally. -/
def check_response (response : Response) : Except PyExc Unit :=
  if response.status_code = 200 then .ok ()
  else
    match responseJson response with
    | .error e => .error e
    | .ok data =>
      match pyIndex data "status" with
      | .error e => .error e
      | .ok status =>
        if 500 ≤ response.status_code ∧ response.status_code < 600 then
          match headerGet response.headers "content-type" with
          | .error e => .error e
          | .ok ct =>
            if ct = "application/json" then
              match pyGet data "status" with
              | .error e => .error e
              | .ok st =>
                match pyGet data "data" with
                | .error e => .error e
                | .ok d =>
                  match pyGet d "message" with
                  | .error e => .error e
                  | .ok msg =>
                    .error (.domain (.serviceMalfunctioning
                      ("Billogram API reported a server error: " ++
                        pyStr st ++ " - " ++ pyStr msg)))
            else
              .error (.domain (.serviceMalfunctioning "Billogram API reported a server error"))
        else if status.truthy = false then
          .error (.domain (.serviceMalfunctioning "Response data missing status field"))
        else if jsonHasKey data "data" = false then
          .error (.domain (.serviceMalfunctioning "Response data missing data field"))
        else if response.status_code = 400 then
          if jsonEqStr status "INVALID_PARAMETER" then
            match pyGet data "data" with
            | .error e => .error e
            | .ok d =>
              match pyGet d "message" with
              | .error e => .error e
              | .ok msg =>
                .error (.domain (.invalidParameter
                  ("A field in the request has an invalid value, type or is out of range: " ++
                    pyStr msg)))
          else .ok ()
        else if response.status_code = 403 then
          if jsonEqStr status "PERMISSION_DENIED" then
            .error (.domain (.notAuthorized "Not allowed to perform the requested operation"))
          else if jsonEqStr status "INVALID_AUTH" then
            .error (.domain (.invalidAuthentication
              ("The user/key combination is wrong, check the credentials " ++
                "                     used and possibly generate a new set")))
          else if jsonEqStr status "MISSING_AUTH" then
            .error (.domain (.requestForm "No authentication data was given"))
          else
            .error (.domain (.permissionDenied ("Permission denied, status=" ++ pyStr status)))
        else if response.status_code = 404 then
          match pyGet data "status" with
          | .error e => .error e
          | .ok st =>
            if jsonEqStr st "NOT_AVAILABLE_YET" then
              .error (.domain (.objectNotFound "Object not available yet"))
            else
              .error (.domain (.objectNotFound "Object not found"))
        else .ok ()

/-- Characters of the local-part class `[A-Za-z0-9._%+-]` of the email
regex. -/
def isLocalChar (c : Char) : Bool :=
  c.isAlpha || c.isDigit || c == '.' || c == '_' || c == '%' || c == '+' || c == '-'

/-- Characters of the domain class `[A-Za-z0-9.-]` of the email regex. -/
def isDomainChar (c : Char) : Bool :=
  c.isAlpha || c.isDigit || c == '.' || c == '-'

/-- Characters of the final-label class `[A-Z|a-z]` of the email regex:
letters and, because of the literal pipe written inside the class, the `|`
character. -/
def isTldChar (c : Char) : Bool :=
  c.isAlpha || c == '|'

/-- A regex word character (`\w`), deciding the `\b` boundaries of the
source patterns; every character those patterns can match is ASCII, where
`\w` is a letter, a digit or an underscore. -/
def isWordChar (c : Char) : Bool :=
  c.isAlpha || c.isDigit || c == '_'

/-- All ways of splitting a character list into a prefix and a suffix,
enumerating the positions a regex alternation point can fall on. -/
def splits (cs : List Char) : List (List Char × List Char) :=
  (List.range (cs.length + 1)).map (fun i => (cs.take i, cs.drop i))

/-- `email_is_valid(email)` from the source:
`re.fullmatch` of `\b[A-Za-z0-9._%+-]+@[A-Za-z0-9.-]+\.[A-Z|a-z]` followed by
`\x7b2,\x7d\b` against the whole string. A full match decomposes the string
as `local ++ "@" ++ domain ++ "." ++ tld` over the three character classes;
the leading `\b` additionally requires the first character of the string to
be a word character (so a local part may not start with `.`, `%`, `+` or
`-`) and the trailing `\b` requires the last character to be a word
character (so the final label may not end in `|`). -/
def email_is_valid (email : String) : Bool :=
  let cs := email.data
  (match cs.head? with | some c => isWordChar c | none => false) &&
  (match cs.getLast? with | some c => isWordChar c | none => false) &&
  (splits cs).any (fun p =>
    match p.2 with
    | a :: rest =>
      a == '@' && !p.1.isEmpty && p.1.all isLocalChar &&
      (splits rest).any (fun q =>
        match q.2 with
        | b :: t =>
          b == '.' && !q.1.isEmpty && q.1.all isDomainChar &&
          decide (2 ≤ t.length) && t.all isTldChar
        | [] => false)
    | [] => false)

/-- The email grammar exactly as the specification words it, stated for
comparison with `email_is_valid`: a full-string decomposition
`local ++ "@" ++ domain ++ "." ++ tld` where the local part is over letters,
digits and `. _ % + -`, the domain over letters, digits, `.` and `-`, and
the final label is at least 2 alphabetic characters — with no further
conditions. -/
def email_spec_valid (email : String) : Bool :=
  let cs := email.data
  (splits cs).any (fun p =>
    match p.2 with
    | a :: rest =>
      a == '@' && !p.1.isEmpty && p.1.all isLocalChar &&
      (splits rest).any (fun q =>
        match q.2 with
        | b :: t =>
          b == '.' && !q.1.isEmpty && q.1.all isDomainChar &&
          decide (2 ≤ t.length) && t.all Char.isAlpha
        | [] => false)
    | [] => false)

/-- `phone_is_valid(phone_number)` from the source: `re.fullmatch` of
`\b0\d` followed by `\x7b8,10\x7d\b`, i.e. a leading `0` followed by 8 to 10
digits (both `\b` boundaries hold automatically: the first and last matched
characters are digits). -/
def phone_is_valid (phone_number : String) : Bool :=
  match phone_number.data with
  | [] => false
  | c :: ds => c == '0' && ds.all Char.isDigit && decide (8 ≤ ds.length) && decide (ds.length ≤ 10)

/-- One CSV row as consumed by the per-record workflow. `csv.DictReader`
yields strings; `article_price` is modelled as the rational the source
obtains with `float(...)`. -/
structure InvoiceDict where
  customer_number : String
  invoice_number : String
  name : String
  street_address : String
  postal_code : String
  city : String
  email : String
  phone_number : String
  article_name : String
  article_price : ℚ
  deriving Repr

/-- The contact dict built by `create_contact_field`. -/
structure ContactField where
  email : String
  phone : String
  deriving Repr, DecidableEq

/-- `create_contact_field(invoice)` from the source: the email is checked
first (`if invoice["email"]:` is string truthiness, i.e. non-emptiness) and
an invalid email raises `InvalidContact` naming the value, before the phone
is ever examined; then the phone likewise. On success each returned field
is the input value when non-empty and `""` otherwise. -/
def create_contact_field (invoice : InvoiceDict) : Except PyExc ContactField :=
  if invoice.email ≠ "" ∧ email_is_valid invoice.email = false then
    .error (.domain (.invalidContact ("Invalid format of email: " ++ invoice.email)))
  else if invoice.phone_number ≠ "" ∧ phone_is_valid invoice.phone_number = false then
    .error (.domain (.invalidContact ("invalid format of phone number: " ++ invoice.phone_number)))
  else
    .ok { email := if invoice.email ≠ "" then invoice.email else ""
          phone := if invoice.phone_number ≠ "" then invoice.phone_number else "" }

/-- `create_address_field(invoice)` from the source: a direct field copy. -/
def create_address_field (invoice : InvoiceDict) : Json :=
  .obj [("street_address", .str invoice.street_address),
        ("zipcode", .str invoice.postal_code),
        ("city", .str invoice.city)]

/-- The item dict built by `create_item_field`; `description` is `none` when
the source leaves the key out of the dict. -/
structure ItemDict where
  vat : Nat
  count : Nat
  price : ℚ
  title : String
  description : Option String
  deriving Repr

/-- `create_item_field(invoice)` from the source: fixed `vat = 25` and
`count = 1`, `price = article_price / (1 + vat / 100)`, and the title is the
article name, truncated to its first 37 characters plus `"..."` (with the
full name moved into `description`) when longer than 40 characters. -/
def create_item_field (invoice : InvoiceDict) : ItemDict :=
  let vat : Nat := 25
  let count : Nat := 1
  let price : ℚ := invoice.article_price / (1 + (vat : ℚ) / 100)
  let title := invoice.article_name
  if title.length > 40 then
    { vat := vat, count := count, price := price
      description := some title
      title := title.take 37 ++ "..." }
  else
    { vat := vat, count := count, price := price, title := title, description := none }

/-- The fixed API base URL of the source. -/
def BASE_URL : String := "https://sandbox.billogram.com/api/v2"

/-- One HTTP request issued by the workflow (the constant auth headers are
omitted: they carry no per-record information). -/
inductive Request where
  | get (url : String)
  | post (url : String) (body : Json)
  deriving Repr

/-- The HTTP client collaborator: what response each request receives. -/
structure Client where
  get : String → Response
  post : String → Json → Response

/-- The contact dict as embedded in the customer-creation body. -/
def ContactField.toJson (c : ContactField) : Json :=
  .obj [("email", .str c.email), ("phone", .str c.phone)]

/-- `create_customer(client, invoice)` from the source, returning the list
of HTTP requests issued (in order) alongside the outcome. The customer
lookup GET is issued first; its response is classified, and only when
classification raises `ObjectNotFoundError` are the contact and address
fields built (so `create_contact_field` may raise here) and the creation
POST issued. After a successful classification of the POST the source reads
`response.json()["data"]["customer_no"]` for its log line, which is where
any remaining raw indexing errors can escape. -/
def create_customer (client : Client) (invoice : InvoiceDict) :
    List Request × Except PyExc Unit :=
  let getUrl := BASE_URL ++ "/customer" ++ "/" ++ invoice.customer_number
  let response := client.get getUrl
  match check_response response with
  | .ok () => ([Request.get getUrl], .ok ())
  | .error (.domain (.objectNotFound _)) =>
    match create_contact_field invoice with
    | .error e => ([Request.get getUrl], .error e)
    | .ok contact =>
      let customer_body : Json :=
        .obj [("customer_no", .str invoice.customer_number),
              ("name", .str invoice.name),
              ("contact", contact.toJson),
              ("address", create_address_field invoice)]
      let response2 := client.post (BASE_URL ++ "/customer") customer_body
      let trace := [Request.get getUrl, Request.post (BASE_URL ++ "/customer") customer_body]
      match check_response response2 with
      | .error e => (trace, .error e)
      | .ok () =>
        match responseJson response2 with
        | .error e => (trace, .error e)
        | .ok response_body =>
          match pyIndex response_body "data" with
          | .error e => (trace, .error e)
          | .ok customer =>
            match pyIndex customer "customer_no" with
            | .error e => (trace, .error e)
            | .ok _ => (trace, .ok ())
  | .error e => ([Request.get getUrl], .error e)

/-! Concrete inputs used to instantiate the theorems below. -/

/-- Body fields of a 200 response whose `data` object is `(id := 7)`. -/
def bodyFieldsId7 : List (String × Json) :=
  [("status", Json.str "ok"), ("data", Json.obj [("id", Json.num 7)])]

/-- Body fields of a 200 response whose `data` object is `(id := 8)`. -/
def bodyFieldsId8 : List (String × Json) :=
  [("status", Json.str "ok"), ("data", Json.obj [("id", Json.num 8)])]

/-- A 200 response carrying the `id := 7` payload. -/
def okResponse7 : Response :=
  { status_code := 200, headers := [], body := some (Json.obj bodyFieldsId7) }

/-- A 200 response carrying the `id := 8` payload. -/
def okResponse8 : Response :=
  { status_code := 200, headers := [], body := some (Json.obj bodyFieldsId8) }

/-- A 404 response whose JSON body lacks the `status` key. -/
def resp404NoStatus : Response :=
  { status_code := 404, headers := [], body := some (Json.obj [("data", Json.obj [])]) }

/-- A 404 response whose body is not valid JSON. -/
def resp404NotJson : Response :=
  { status_code := 404, headers := [], body := none }

/-- A 403 response reporting `PERMISSION_DENIED`. -/
def resp403Denied : Response :=
  { status_code := 403, headers := [],
    body := some (Json.obj [("status", Json.str "PERMISSION_DENIED"), ("data", Json.obj [])]) }

/-- A 400 response whose JSON body lacks the `status` key. -/
def resp400NoStatus : Response :=
  { status_code := 400, headers := [], body := some (Json.obj [("data", Json.obj [])]) }

/-- A 500 response with JSON content type whose body has a falsy (empty
string) `status` field. -/
def resp500FalsyStatus : Response :=
  { status_code := 500, headers := [("content-type", "application/json")],
    body := some (Json.obj
      [("status", Json.str ""), ("data", Json.obj [("message", Json.str "boom")])]) }

/-- A 404 response whose `status` field is present but falsy. -/
def resp404FalsyStatus : Response :=
  { status_code := 404, headers := [],
    body := some (Json.obj [("status", Json.str ""), ("data", Json.obj [])]) }

/-- A 404 response with a truthy status and no `data` key. -/
def resp404NoData : Response :=
  { status_code := 404, headers := [],
    body := some (Json.obj [("status", Json.str "NOT_FOUND")]) }

/-- A 500 response whose body is not valid JSON. -/
def resp500NotJson : Response :=
  { status_code := 500, headers := [("content-type", "application/json")], body := none }

/-- A 503 response with no content-type header at all. -/
def resp503NoHeader : Response :=
  { status_code := 503, headers := [],
    body := some (Json.obj [("status", Json.str "x"), ("data", Json.obj [])]) }

/-- A 500 response with JSON content type whose body lacks the `data` key
(`data.get("data")` is `None`, so `.get("message")` raises). -/
def resp500NoData : Response :=
  { status_code := 500, headers := [("content-type", "application/json")],
    body := some (Json.obj [("status", Json.str "x")]) }

/-- A 502 response with JSON content type and a well-formed error envelope. -/
def resp502Detailed : Response :=
  { status_code := 502, headers := [("content-type", "application/json")],
    body := some (Json.obj
      [("status", Json.str "SERVER_ERROR"), ("data", Json.obj [("message", Json.str "overloaded")])]) }

/-- A 599 response with a non-JSON content type. -/
def resp599Html : Response :=
  { status_code := 599, headers := [("content-type", "text/html")],
    body := some (Json.obj [("status", Json.str "x"), ("data", Json.obj [])]) }

/-- A 403 response reporting `INVALID_AUTH`. -/
def resp403InvalidAuth : Response :=
  { status_code := 403, headers := [],
    body := some (Json.obj [("status", Json.str "INVALID_AUTH"), ("data", Json.obj [])]) }

/-- A 422 response with a well-formed `(status, data)` envelope: no branch
of the classifier matches it. -/
def resp422 : Response :=
  { status_code := 422, headers := [],
    body := some (Json.obj [("status", Json.str "ok"), ("data", Json.obj [])]) }

/-- A 404 "customer not found" response, as returned by the lookup GET. -/
def respNotFound : Response :=
  { status_code := 404, headers := [],
    body := some (Json.obj [("status", Json.str "NOT_FOUND"), ("data", Json.obj [])]) }

/-- An invoice whose email is present but malformed. -/
def invoiceBadEmail : InvoiceDict :=
  { customer_number := "123", invoice_number := "1", name := "Ada"
    street_address := "Street 1", postal_code := "11111", city := "Town"
    email := "not-an-email", phone_number := ""
    article_name := "Widget", article_price := 125 }

/-- A client whose every response is the 404 "customer not found" envelope;
the POST response is never consulted in the runs considered. -/
def clientNotFound : Client :=
  { get := fun _ => respNotFound, post := fun _ _ => respNotFound }

/-- An invoice with an invalid email and an invalid phone number. -/
def invoiceBothBad : InvoiceDict :=
  { customer_number := "7", invoice_number := "2", name := "Bo"
    street_address := "S", postal_code := "1", city := "C"
    email := "nope", phone_number := "123"
    article_name := "Thing", article_price := 10 }

/-- An invoice with neither email nor phone. -/
def invoiceNoContact : InvoiceDict :=
  { customer_number := "8", invoice_number := "3", name := "Cy"
    street_address := "S", postal_code := "1", city := "C"
    email := "", phone_number := ""
    article_name := "Thing", article_price := 10 }

/-- An invoice whose article name is 48 characters long. -/
def invoiceLongTitle : InvoiceDict :=
  { customer_number := "9", invoice_number := "4", name := "Di"
    street_address := "S", postal_code := "1", city := "C"
    email := "", phone_number := ""
    article_name := "The Hitchhikers Guide to the Galaxy, illustrated"
    article_price := 125 }

/-! Helper lemmas: the raw-exception shapes each primitive can produce. -/

theorem responseJson_error {r : Response} {e : PyExc}
    (h : responseJson r = .error e) : e = .jsonDecodeError := by
  unfold responseJson at h
  split at h <;> simp_all

theorem pyIndex_error {j : Json} {k : String} {e : PyExc}
    (h : pyIndex j k = .error e) : e = .keyError k ∨ e = .typeError := by
  unfold pyIndex at h
  split at h
  · split at h <;> simp_all
  · simp_all

theorem pyGet_error {j : Json} {k : String} {e : PyExc}
    (h : pyGet j k = .error e) : e = .attributeError := by
  unfold pyGet at h
  split at h <;> simp_all

theorem headerGet_error {hs : List (String × String)} {k : String} {e : PyExc}
    (h : headerGet hs k = .error e) : e = .keyError k := by
  unfold headerGet at h
  split at h <;> simp_all

/-- Claim C1 (amended): on every response with status code 200 the
classifier returns immediately — its result is the bare unit value (the
Python function is annotated `-> None` and its body never touches the body
of a 200 response), not the `data` payload. -/
theorem check_response_ok_on_200 (r : Response) (h : r.status_code = 200) :
    check_response r = .ok () := by
  simp [check_response, h]

/-- Witness for C1 (amended) at the concrete 200 response with body
`(status := "ok", data := (id := 7))`. -/
theorem check_response_ok_on_200_witness :
    check_response okResponse7 = .ok () :=
  check_response_ok_on_200 okResponse7 rfl

/-- Counterexample to claim C1 as stated: two 200 responses whose `data`
objects differ (`id := 7` vs `id := 8`) are classified to the identical
information-free result `.ok ()`, so the classifier cannot be returning the
`data` object as its result. -/
theorem check_response_not_returning_data :
    check_response okResponse7 = check_response okResponse8 ∧
    lookupField bodyFieldsId7 "data" ≠ lookupField bodyFieldsId8 "data" := by
  refine ⟨rfl, ?_⟩
  simp [bodyFieldsId7, bodyFieldsId8, lookupField]

/-- Claim C3 (amended): for a non-200 response outside [500,600) whose JSON
body is an object that does contain the `status` key, a falsy `status`
raises `ServiceMalfunctioningError("Response data missing status field")`,
and a truthy `status` with no `data` key raises
`ServiceMalfunctioningError("Response data missing data field")`. (When the
`status` key is missing altogether, the source raises a raw `KeyError`
instead — see the counterexample — and in [500,600) the 5xx branch fires
first.) -/
theorem check_response_missing_fields (r : Response) (fs : List (String × Json)) (st : Json)
    (hne : r.status_code ≠ 200)
    (hbody : r.body = some (Json.obj fs))
    (hst : lookupField fs "status" = some st)
    (hnot5 : ¬ (500 ≤ r.status_code ∧ r.status_code < 600)) :
    (st.truthy = false →
      check_response r =
        .error (.domain (.serviceMalfunctioning "Response data missing status field"))) ∧
    (st.truthy = true → lookupField fs "data" = none →
      check_response r =
        .error (.domain (.serviceMalfunctioning "Response data missing data field"))) := by
  constructor
  · intro htr
    simp [check_response, hne, responseJson, hbody, pyIndex, hst, hnot5, htr]
  · intro htr hdk
    simp [check_response, hne, responseJson, hbody, pyIndex, hst, hnot5, htr, jsonHasKey, hdk]

/-- Witness for C3 (amended) at a 404 response with a present-but-falsy
`status` field. -/
theorem check_response_missing_fields_witness :
    check_response resp404FalsyStatus =
      .error (.domain (.serviceMalfunctioning "Response data missing status field")) :=
  (check_response_missing_fields resp404FalsyStatus
      [("status", Json.str ""), ("data", Json.obj [])] (Json.str "")
      (by decide) rfl rfl (by decide)).1 rfl

/-- Counterexample to claim C3 as stated: on a 400 response whose JSON body
has no `status` key at all the classifier raises a raw `KeyError`, not
`ServiceMalfunctioningError`; and on a 500 response a falsy `status` is
reported through the server-error branch with a different message, not as
"missing status field". -/
theorem check_response_missing_status_keyerror :
    check_response resp400NoStatus = .error (.keyError "status") ∧
    check_response resp400NoStatus ≠
      .error (.domain (.serviceMalfunctioning "Response data missing status field")) ∧
    check_response resp500FalsyStatus =
      .error (.domain (.serviceMalfunctioning "Billogram API reported a server error:  - boom")) := by
  refine ⟨rfl, ?_, rfl⟩
  simp [show check_response resp400NoStatus = .error (.keyError "status") from rfl]

/-- Claim C4 (amended): for a response with status code in [500,599] whose
body parses as a JSON object containing the `status` key and whose headers
do contain a content-type, the classifier raises
`ServiceMalfunctioningError` — with the server-reported status and message
when the content-type is `application/json` and the `data` field is an
object, and generically for any other content-type. (For other bodies raw
errors escape instead — see the counterexample.) -/
theorem check_response_5xx (r : Response) (fs : List (String × Json)) (st : Json) (ct : String)
    (h5 : 500 ≤ r.status_code) (h6 : r.status_code < 600)
    (hbody : r.body = some (Json.obj fs))
    (hst : lookupField fs "status" = some st)
    (hct : headerGet r.headers "content-type" = .ok ct) :
    (ct = "application/json" → ∀ gs, lookupField fs "data" = some (Json.obj gs) →
      check_response r = .error (.domain (.serviceMalfunctioning
        ("Billogram API reported a server error: " ++ pyStr st ++ " - " ++
          pyStr ((lookupField gs "message").getD .null))))) ∧
    (ct ≠ "application/json" →
      check_response r = .error (.domain (.serviceMalfunctioning
        "Billogram API reported a server error"))) := by
  have hne : r.status_code ≠ 200 := by omega
  constructor
  · intro hjson gs hgs
    simp [check_response, hne, responseJson, hbody, pyIndex, hst, h5, h6, hct, hjson,
      pyGet, hgs]
  · intro hjson
    simp [check_response, hne, responseJson, hbody, pyIndex, hst, h5, h6, hct, hjson]

/-- Witness for C4 (amended): a 502 with a JSON error envelope gets the
detailed message, a 599 with an HTML content-type the generic one. -/
theorem check_response_5xx_witness :
    check_response resp502Detailed =
      .error (.domain (.serviceMalfunctioning
        "Billogram API reported a server error: SERVER_ERROR - overloaded")) ∧
    check_response resp599Html =
      .error (.domain (.serviceMalfunctioning "Billogram API reported a server error")) := by
  constructor
  · exact (check_response_5xx resp502Detailed
      [("status", Json.str "SERVER_ERROR"), ("data", Json.obj [("message", Json.str "overloaded")])]
      (Json.str "SERVER_ERROR") "application/json"
      (by decide) (by decide) rfl rfl rfl).1 rfl
      [("message", Json.str "overloaded")] rfl
  · exact (check_response_5xx resp599Html
      [("status", Json.str "x"), ("data", Json.obj [])]
      (Json.str "x") "text/html"
      (by decide) (by decide) rfl rfl rfl).2 (by decide)

/-- Counterexample to claim C4 as stated ("for any body"): a 500 whose body
is not valid JSON surfaces the raw JSON decode error; a 503 with no
content-type header surfaces a raw `KeyError`; and a 500 whose JSON body
lacks the `data` key surfaces a raw `AttributeError` (from
`data.get("data").get("message")`) — none of them raises
`ServiceMalfunctioningError`. -/
theorem check_response_5xx_raw_errors :
    check_response resp500NotJson = .error .jsonDecodeError ∧
    check_response resp503NoHeader = .error (.keyError "content-type") ∧
    check_response resp500NoData = .error .attributeError := by
  exact ⟨rfl, rfl, rfl⟩

/-- Claim C5: a 403 response with a truthy `status` and a `data` key is
classified exactly by its body status: `PERMISSION_DENIED` raises
`NotAuthorizedError`, `INVALID_AUTH` raises `InvalidAuthenticationError`,
`MISSING_AUTH` raises `RequestFormError`, and any other value raises
`PermissionDeniedError` carrying the status string. -/
theorem check_response_403 (r : Response) (fs : List (String × Json)) (st : Json)
    (h403 : r.status_code = 403)
    (hbody : r.body = some (Json.obj fs))
    (hst : lookupField fs "status" = some st)
    (htruthy : st.truthy = true)
    (hdata : (lookupField fs "data").isSome = true) :
    (jsonEqStr st "PERMISSION_DENIED" = true →
      check_response r =
        .error (.domain (.notAuthorized "Not allowed to perform the requested operation"))) ∧
    (jsonEqStr st "INVALID_AUTH" = true →
      check_response r =
        .error (.domain (.invalidAuthentication
          ("The user/key combination is wrong, check the credentials " ++
            "                     used and possibly generate a new set")))) ∧
    (jsonEqStr st "MISSING_AUTH" = true →
      check_response r = .error (.domain (.requestForm "No authentication data was given"))) ∧
    (jsonEqStr st "PERMISSION_DENIED" = false →
      jsonEqStr st "INVALID_AUTH" = false →
      jsonEqStr st "MISSING_AUTH" = false →
      check_response r =
        .error (.domain (.permissionDenied ("Permission denied, status=" ++ pyStr st)))) := by
  refine ⟨?_, ?_, ?_, ?_⟩
  · intro h
    simp [check_response, h403, responseJson, hbody, pyIndex, hst, htruthy, jsonHasKey,
      hdata, h]
  · intro h
    have hne : jsonEqStr st "PERMISSION_DENIED" = false := by
      cases st <;> simp_all [jsonEqStr]
    simp [check_response, h403, responseJson, hbody, pyIndex, hst, htruthy, jsonHasKey,
      hdata, h, hne]
  · intro h
    have hne1 : jsonEqStr st "PERMISSION_DENIED" = false := by
      cases st <;> simp_all [jsonEqStr]
    have hne2 : jsonEqStr st "INVALID_AUTH" = false := by
      cases st <;> simp_all [jsonEqStr]
    simp [check_response, h403, responseJson, hbody, pyIndex, hst, htruthy, jsonHasKey,
      hdata, h, hne1, hne2]
  · intro h1 h2 h3
    simp [check_response, h403, responseJson, hbody, pyIndex, hst, htruthy, jsonHasKey,
      hdata, h1, h2, h3]

/-- Witness for C5 at the concrete 403 response reporting `INVALID_AUTH`. -/
theorem check_response_403_witness :
    check_response resp403InvalidAuth =
      .error (.domain (.invalidAuthentication
        ("The user/key combination is wrong, check the credentials " ++
          "                     used and possibly generate a new set"))) :=
  (check_response_403 resp403InvalidAuth
      [("status", Json.str "INVALID_AUTH"), ("data", Json.obj [])]
      (Json.str "INVALID_AUTH") rfl rfl rfl rfl rfl).2.1 rfl

/-- Claim C6: any non-200 response whose status code matches no explicit
branch (not in [500,600), not 400-with-`INVALID_PARAMETER`, not 403, not
404) and whose JSON body has a truthy `status` and a `data` key is passed
through: the classifier raises nothing and returns normally. -/
theorem check_response_fallthrough (r : Response) (fs : List (String × Json)) (st : Json)
    (hne : r.status_code ≠ 200)
    (hbody : r.body = some (Json.obj fs))
    (hst : lookupField fs "status" = some st)
    (htruthy : st.truthy = true)
    (hdata : (lookupField fs "data").isSome = true)
    (hnot5 : ¬ (500 ≤ r.status_code ∧ r.status_code < 600))
    (hnot400 : ¬ (r.status_code = 400 ∧ jsonEqStr st "INVALID_PARAMETER" = true))
    (hnot403 : r.status_code ≠ 403)
    (hnot404 : r.status_code ≠ 404) :
    check_response r = .ok () := by
  by_cases h400 : r.status_code = 400
  · have hip : jsonEqStr st "INVALID_PARAMETER" = false := by
      rcases Bool.eq_false_or_eq_true (jsonEqStr st "INVALID_PARAMETER") with h | h
      · exact absurd ⟨h400, h⟩ hnot400
      · exact h
    simp [check_response, hne, responseJson, hbody, pyIndex, hst, htruthy, jsonHasKey,
      hdata, hnot5, h400, hip]
  · simp [check_response, hne, responseJson, hbody, pyIndex, hst, htruthy, jsonHasKey,
      hdata, hnot5, h400, hnot403, hnot404]

/-- Claim C2 (amended): the classifier raises only typed domain errors
provided the body parses as a JSON object containing a `status` key and the
branch that fires can format its message — in [500,600) the content-type
header must exist and, when it is `application/json`, the `data` field must
be an object, and likewise for a 400 with status `INVALID_PARAMETER`. For
other responses raw transport or parsing failures do escape (see the
counterexample, which the claim explicitly rules out): a non-JSON body
surfaces the JSON decode error and a body without `status` a raw
`KeyError`. -/
theorem check_response_domain_only (r : Response) (fs : List (String × Json)) (st : Json)
    (hbody : r.body = some (Json.obj fs))
    (hst : lookupField fs "status" = some st)
    (h5 : 500 ≤ r.status_code → r.status_code < 600 →
      ∃ ct, headerGet r.headers "content-type" = .ok ct ∧
        (ct = "application/json" → ∃ gs, lookupField fs "data" = some (Json.obj gs)))
    (h400 : r.status_code = 400 → jsonEqStr st "INVALID_PARAMETER" = true →
      ∃ gs, lookupField fs "data" = some (Json.obj gs)) :
    check_response r = .ok () ∨ ∃ e, check_response r = .error (.domain e) := by
  by_cases h200 : r.status_code = 200
  · left; simp [check_response, h200]
  by_cases h5x : 500 ≤ r.status_code ∧ r.status_code < 600
  · obtain ⟨ct, hct, hj⟩ := h5 h5x.1 h5x.2
    by_cases hcj : ct = "application/json"
    · obtain ⟨gs, hgs⟩ := hj hcj
      right
      refine ⟨.serviceMalfunctioning
        ("Billogram API reported a server error: " ++ pyStr st ++ " - " ++
          pyStr ((lookupField gs "message").getD .null)), ?_⟩
      simp [check_response, h200, responseJson, hbody, pyIndex, hst, h5x,
        hct, hcj, pyGet, hgs]
    · right
      refine ⟨.serviceMalfunctioning "Billogram API reported a server error", ?_⟩
      simp [check_response, h200, responseJson, hbody, pyIndex, hst, h5x, hct, hcj]
  by_cases htr : st.truthy
  case neg =>
    right
    refine ⟨.serviceMalfunctioning "Response data missing status field", ?_⟩
    simp [check_response, h200, responseJson, hbody, pyIndex, hst, h5x,
      Bool.eq_false_iff.mpr htr]
  by_cases hdk : (lookupField fs "data").isSome
  case neg =>
    right
    refine ⟨.serviceMalfunctioning "Response data missing data field", ?_⟩
    simp [check_response, h200, responseJson, hbody, pyIndex, hst, h5x, htr, jsonHasKey,
      Bool.eq_false_iff.mpr hdk]
  by_cases hc400 : r.status_code = 400
  · by_cases hip : jsonEqStr st "INVALID_PARAMETER" = true
    · obtain ⟨gs, hgs⟩ := h400 hc400 hip
      right
      refine ⟨.invalidParameter
        ("A field in the request has an invalid value, type or is out of range: " ++
          pyStr ((lookupField gs "message").getD .null)), ?_⟩
      simp [check_response, h200, responseJson, hbody, pyIndex, hst, h5x,
        htr, jsonHasKey, hdk, hc400, hip, pyGet, hgs]
    · left
      simp [check_response, h200, responseJson, hbody, pyIndex, hst, h5x, htr,
        jsonHasKey, hdk, hc400, Bool.eq_false_iff.mpr hip]
  by_cases hc403 : r.status_code = 403
  · have hform : check_response r =
        (if jsonEqStr st "PERMISSION_DENIED" then
          .error (.domain (.notAuthorized "Not allowed to perform the requested operation"))
        else if jsonEqStr st "INVALID_AUTH" then
          .error (.domain (.invalidAuthentication
            ("The user/key combination is wrong, check the credentials " ++
              "                     used and possibly generate a new set")))
        else if jsonEqStr st "MISSING_AUTH" then
          .error (.domain (.requestForm "No authentication data was given"))
        else
          .error (.domain (.permissionDenied ("Permission denied, status=" ++ pyStr st)))) := by
      simp [check_response, h200, responseJson, hbody, pyIndex, hst, h5x, htr,
        jsonHasKey, hdk, hc400, hc403]
    rw [hform]
    right
    split
    · exact ⟨_, rfl⟩
    split
    · exact ⟨_, rfl⟩
    split
    · exact ⟨_, rfl⟩
    · exact ⟨_, rfl⟩
  by_cases hc404 : r.status_code = 404
  · have hform : check_response r =
        (if jsonEqStr st "NOT_AVAILABLE_YET" then
          .error (.domain (.objectNotFound "Object not available yet"))
        else
          .error (.domain (.objectNotFound "Object not found"))) := by
      simp [check_response, h200, responseJson, hbody, pyIndex, hst, h5x, htr,
        jsonHasKey, hdk, hc400, hc403, hc404, pyGet]
    rw [hform]
    right
    split
    · exact ⟨_, rfl⟩
    · exact ⟨_, rfl⟩
  · left
    simp [check_response, h200, responseJson, hbody, pyIndex, hst, h5x, htr,
      jsonHasKey, hdk, hc400, hc403, hc404]

/-- Witness for C2 (amended) at the concrete 403 `PERMISSION_DENIED`
response. -/
theorem check_response_domain_only_witness :
    check_response resp403Denied = .ok () ∨
      ∃ e, check_response resp403Denied = .error (.domain e) :=
  check_response_domain_only resp403Denied
    [("status", Json.str "PERMISSION_DENIED"), ("data", Json.obj [])]
    (Json.str "PERMISSION_DENIED") rfl rfl
    (fun h => absurd h (by decide))
    (fun h => absurd h (by decide))

/-- Counterexample to claim C2 as stated: a 404 response whose JSON body
lacks the `status` key makes the classifier surface a raw `KeyError`, and a
404 response whose body is not valid JSON surfaces the raw JSON decode
error — neither is a member of the `InvoicingError` taxonomy (they are the
`keyError`/`jsonDecodeError` constructors, not `domain`). -/
theorem check_response_raw_escapes :
    check_response resp404NoStatus = .error (.keyError "status") ∧
    check_response resp404NotJson = .error .jsonDecodeError := ⟨rfl, rfl⟩

/-- Witness for C6 at a 422 response with a well-formed envelope. -/
theorem check_response_fallthrough_witness :
    check_response resp422 = .ok () :=
  check_response_fallthrough resp422
    [("status", Json.str "ok"), ("data", Json.obj [])] (Json.str "ok")
    (by decide) rfl rfl rfl rfl (by decide) (by simp [jsonEqStr]) (by decide) (by decide)

/-- Claim C7 (amended): when a non-empty email or phone number fails
validation, `create_customer` issues exactly one HTTP request — the
customer-lookup GET, which precedes validation — and never the creation
POST; when the lookup is classified `ObjectNotFoundError` the record then
fails with `InvalidContact`. (The original claim that no request at all is
made before the failure is refuted by the counterexample: the GET comes
first.) -/
theorem create_customer_single_get_on_invalid_contact (client : Client) (invoice : InvoiceDict)
    (hbad : (invoice.email ≠ "" ∧ email_is_valid invoice.email = false) ∨
            (invoice.phone_number ≠ "" ∧ phone_is_valid invoice.phone_number = false)) :
    (create_customer client invoice).1 =
      [Request.get (BASE_URL ++ "/customer" ++ "/" ++ invoice.customer_number)] ∧
    (∀ m, check_response (client.get (BASE_URL ++ "/customer" ++ "/" ++ invoice.customer_number)) =
        .error (.domain (.objectNotFound m)) →
      ∃ m2, (create_customer client invoice).2 = .error (.domain (.invalidContact m2))) := by
  have hcontact : ∃ m2, create_contact_field invoice =
      .error (.domain (.invalidContact m2)) := by
    by_cases hem : invoice.email ≠ "" ∧ email_is_valid invoice.email = false
    · exact ⟨"Invalid format of email: " ++ invoice.email,
        by simp [create_contact_field, hem]⟩
    · have hph : invoice.phone_number ≠ "" ∧ phone_is_valid invoice.phone_number = false := by
        rcases hbad with h | h
        · exact absurd h hem
        · exact h
      exact ⟨"invalid format of phone number: " ++ invoice.phone_number,
        by simp [create_contact_field, hem, hph]⟩
  obtain ⟨m2, hc⟩ := hcontact
  constructor
  · cases hcr : check_response (client.get (BASE_URL ++ "/customer" ++ "/" ++ invoice.customer_number)) with
    | ok u => simp [create_customer, hcr]
    | error e =>
      cases e with
      | domain de => cases de <;> simp [create_customer, hcr, hc]
      | keyError k => simp [create_customer, hcr]
      | typeError => simp [create_customer, hcr]
      | attributeError => simp [create_customer, hcr]
      | jsonDecodeError => simp [create_customer, hcr]
  · intro m hget
    exact ⟨m2, by simp [create_customer, hget, hc]⟩

/-- Witness for C7 (amended) at the concrete not-found client and
bad-email invoice. -/
theorem create_customer_single_get_witness :
    (create_customer clientNotFound invoiceBadEmail).1 =
      [Request.get (BASE_URL ++ "/customer" ++ "/" ++ invoiceBadEmail.customer_number)] :=
  (create_customer_single_get_on_invalid_contact clientNotFound invoiceBadEmail
    (Or.inl ⟨by decide, by decide⟩)).1

/-- Counterexample to claim C7 as stated: with a client that reports the
customer missing and an invoice whose email is invalid, `create_customer`
fails with `InvalidContact` — but its request trace is the non-empty
`[GET /customer/123]`: the lookup GET is issued before validation, so a
network call does precede the validation failure. -/
theorem create_customer_get_precedes_validation :
    (create_customer clientNotFound invoiceBadEmail).2 =
      .error (.domain (.invalidContact "Invalid format of email: not-an-email")) ∧
    (create_customer clientNotFound invoiceBadEmail).1 =
      [Request.get "https://sandbox.billogram.com/api/v2/customer/123"] ∧
    (create_customer clientNotFound invoiceBadEmail).1 ≠ [] := by
  refine ⟨rfl, rfl, ?_⟩
  rw [show (create_customer clientNotFound invoiceBadEmail).1 =
    [Request.get "https://sandbox.billogram.com/api/v2/customer/123"] from rfl]
  simp

/-- Claim C8: `create_contact_field` checks the email first — a non-empty
invalid email raises `InvalidContact` naming the value regardless of the
phone — then the phone; and when both fields are empty it returns
`(email := "", phone := "")` without failing. -/
theorem create_contact_field_order (invoice : InvoiceDict) :
    (invoice.email ≠ "" → email_is_valid invoice.email = false →
      create_contact_field invoice =
        .error (.domain (.invalidContact ("Invalid format of email: " ++ invoice.email)))) ∧
    ((invoice.email = "" ∨ email_is_valid invoice.email = true) →
      invoice.phone_number ≠ "" → phone_is_valid invoice.phone_number = false →
      create_contact_field invoice =
        .error (.domain (.invalidContact
          ("invalid format of phone number: " ++ invoice.phone_number)))) ∧
    (invoice.email = "" → invoice.phone_number = "" →
      create_contact_field invoice = .ok { email := "", phone := "" }) := by
  refine ⟨?_, ?_, ?_⟩
  · intro h1 h2
    simp [create_contact_field, h1, h2]
  · intro h1 h2 h3
    have hem : ¬ (invoice.email ≠ "" ∧ email_is_valid invoice.email = false) := by
      rcases h1 with h | h <;> simp [h]
    simp [create_contact_field, hem, h2, h3]
  · intro h1 h2
    simp [create_contact_field, h1, h2]

/-- Witness for C8 at an invoice whose email and phone are both invalid:
the email error wins. -/
theorem create_contact_field_order_witness :
    create_contact_field invoiceBothBad =
      .error (.domain (.invalidContact ("Invalid format of email: " ++ invoiceBothBad.email))) :=
  (create_contact_field_order invoiceBothBad).1 (by decide) (by decide)

/-- Claim C9: `create_item_field` fixes `vat = 25` and `count = 1`, prices
the article VAT-exclusively at `article_price / 1.25`, copies the article
name into the title when it fits in 40 characters (producing no
description), and otherwise truncates the title to the first 37 characters
plus `"..."` — exactly 40 characters — with the untruncated name in the
description. -/
theorem create_item_field_spec (invoice : InvoiceDict) :
    (create_item_field invoice).vat = 25 ∧
    (create_item_field invoice).count = 1 ∧
    (create_item_field invoice).price = invoice.article_price / 1.25 ∧
    (invoice.article_name.length ≤ 40 →
      (create_item_field invoice).title = invoice.article_name ∧
      (create_item_field invoice).description = none) ∧
    (40 < invoice.article_name.length →
      (create_item_field invoice).title = invoice.article_name.take 37 ++ "..." ∧
      (create_item_field invoice).title.length = 40 ∧
      (create_item_field invoice).description = some invoice.article_name) := by
  have hprice : invoice.article_price / (1 + (25 : ℚ) / 100) = invoice.article_price / 1.25 := by
    norm_num
  by_cases h : invoice.article_name.length > 40
  · refine ⟨by simp [create_item_field, h], by simp [create_item_field, h],
      by simp [create_item_field, h, hprice], fun hle => absurd h (by omega), fun _ => ?_⟩
    refine ⟨by simp [create_item_field, h], ?_, by simp [create_item_field, h]⟩
    have htitle : (create_item_field invoice).title =
        invoice.article_name.take 37 ++ "..." := by
      simp [create_item_field, h]
    rw [htitle, String.length_append]
    have htake : (invoice.article_name.take 37).length = 37 := by
      have h1 := String.length_data (invoice.article_name.take 37)
      rw [String.data_take, List.length_take] at h1
      have h2 := String.length_data invoice.article_name
      omega
    rw [htake]
    decide
  · have hle : invoice.article_name.length ≤ 40 := by omega
    refine ⟨by simp [create_item_field, h], by simp [create_item_field, h],
      by simp [create_item_field, h, hprice], fun _ => ?_, fun hgt => absurd hgt (by omega)⟩
    exact ⟨by simp [create_item_field, h], by simp [create_item_field, h]⟩

set_option maxHeartbeats 2000000 in
/-- Witness for C9 at the invoice with a 48-character article name and a
VAT-inclusive price of 125. -/
theorem create_item_field_spec_witness :
    (create_item_field invoiceLongTitle).title.length = 40 ∧
    (create_item_field invoiceLongTitle).description = some invoiceLongTitle.article_name :=
  ⟨((create_item_field_spec invoiceLongTitle).2.2.2.2 (by decide)).2.1,
   ((create_item_field_spec invoiceLongTitle).2.2.2.2 (by decide)).2.2⟩

/-- `splits` enumerates exactly the decompositions of a list into a prefix
and a suffix. -/
theorem mem_splits {cs : List Char} {p : List Char × List Char} :
    p ∈ splits cs ↔ cs = p.1 ++ p.2 := by
  unfold splits
  simp only [List.mem_map, List.mem_range]
  constructor
  · rintro ⟨i, hi, rfl⟩
    exact (List.take_append_drop i cs).symm
  · intro h
    refine ⟨p.1.length, ?_, ?_⟩
    · have hlen : cs.length = p.1.length + p.2.length := by rw [h, List.length_append]
      omega
    · rw [h, List.take_left, List.drop_left]

/-- Claim C10 (amended): `email_is_valid s` holds iff the whole string
decomposes as `local ++ "@" ++ domain ++ "." ++ tld` with the local part
non-empty over letters, digits and `. _ % + -`, the domain non-empty over
letters, digits, `.` and `-`, and the final label of length at least 2 over
letters AND the pipe character `|` (the source class `[A-Z|a-z]` contains a
literal pipe), subject to the `\b` boundary conditions: the first character
of the string and its last character must be word characters. The
specification's grammar (alphabetic-only tld, no boundary conditions) is
refuted by the counterexample. -/
theorem email_is_valid_iff (s : String) :
    email_is_valid s = true ↔
      ∃ l d t : List Char,
        s.data = l ++ '@' :: (d ++ '.' :: t) ∧
        l ≠ [] ∧ (∀ c ∈ l, isLocalChar c = true) ∧
        d ≠ [] ∧ (∀ c ∈ d, isDomainChar c = true) ∧
        2 ≤ t.length ∧ (∀ c ∈ t, isTldChar c = true) ∧
        (∀ c, s.data.head? = some c → isWordChar c = true) ∧
        (∀ c, s.data.getLast? = some c → isWordChar c = true) := by
  unfold email_is_valid
  simp only [Bool.and_eq_true, List.any_eq_true]
  constructor
  · rintro ⟨⟨h1, h2⟩, p, hp, hf⟩
    rw [mem_splits] at hp
    obtain ⟨l, r⟩ := p
    dsimp only at hp hf
    cases r with
    | nil => simp at hf
    | cons a rest =>
      simp only [Bool.and_eq_true, beq_iff_eq, Bool.not_eq_true', List.isEmpty_eq_false,
        List.all_eq_true, List.any_eq_true, decide_eq_true_eq] at hf
      obtain ⟨⟨⟨ha, hl⟩, hlc⟩, q, hq, hg⟩ := hf
      rw [mem_splits] at hq
      obtain ⟨d, r2⟩ := q
      dsimp only at hq hg
      cases r2 with
      | nil => simp at hg
      | cons b t =>
        simp only [Bool.and_eq_true, beq_iff_eq, Bool.not_eq_true', List.isEmpty_eq_false,
          List.all_eq_true, decide_eq_true_eq] at hg
        obtain ⟨⟨⟨⟨hb, hd⟩, hdc⟩, ht⟩, htc⟩ := hg
        subst ha hb
        refine ⟨l, d, t, ?_, hl, hlc, hd, hdc, ht, htc, ?_, ?_⟩
        · rw [hp, hq]
        · intro c hc
          rw [hc] at h1
          exact h1
        · intro c hc
          rw [hc] at h2
          exact h2
  · rintro ⟨l, d, t, hdata, hl, hlc, hd, hdc, ht, htc, hhead, hlast⟩
    obtain ⟨c0, l', rfl⟩ := List.exists_cons_of_ne_nil hl
    rcases List.eq_nil_or_concat t with rfl | ⟨t', cl, rfl⟩
    · simp at ht
    rw [List.concat_eq_append] at hdata ht htc
    have hh : s.data.head? = some c0 := by rw [hdata]; rfl
    have hlst : s.data.getLast? = some cl := by
      rw [hdata]
      rw [show c0 :: l' ++ '@' :: (d ++ '.' :: (t' ++ [cl])) =
        (c0 :: l' ++ '@' :: (d ++ '.' :: t')) ++ [cl] by simp]
      exact List.getLast?_concat _
    refine ⟨⟨?_, ?_⟩, ⟨c0 :: l', '@' :: (d ++ '.' :: (t' ++ [cl]))⟩,
      mem_splits.mpr hdata, ?_⟩
    · rw [hh]
      exact hhead c0 hh
    · rw [hlst]
      exact hlast cl hlst
    · simp only [Bool.and_eq_true, beq_iff_eq, Bool.not_eq_true', List.isEmpty_eq_false,
        List.all_eq_true, List.any_eq_true, decide_eq_true_eq]
      refine ⟨⟨⟨trivial, by simp⟩, hlc⟩, ⟨d, '.' :: (t' ++ [cl])⟩, mem_splits.mpr rfl, ?_⟩
      simp only [Bool.and_eq_true, beq_iff_eq, Bool.not_eq_true', List.isEmpty_eq_false,
        List.all_eq_true, decide_eq_true_eq]
      exact ⟨⟨⟨⟨trivial, hd⟩, hdc⟩, ht⟩, htc⟩

/-- Counterexample to claim C10 as stated: the string `a@b.c|d` — whose
final label `c|d` is not 2-or-more alphabetic characters — is accepted by
the source validator (the regex class `[A-Z|a-z]` admits `|`), while the
grammar worded by the specification rejects it; conversely `.a@b.cd`, whose
local part is over the specified class, is rejected by the source (the
leading `\b` fails on `.`) but accepted by the specification grammar. -/
theorem email_is_valid_ne_spec :
    email_is_valid "a@b.c|d" = true ∧ email_spec_valid "a@b.c|d" = false ∧
    email_is_valid ".a@b.cd" = false ∧ email_spec_valid ".a@b.cd" = true := by
  decide

end Onboarding
